import Mathlib

/-!
Verification development for the ayo-glasses-web repository.

Shallow embedding of:
- the util module (the fallible-operation wrapper and the scoped-release
  ExitStack with push / unwind / popAll and the withExitStack scoped-run
  wrapper),
- the ble slice (SessionState record and its reducers),
- the connection-protocol driver (the startAppListening effect on connectBle),
  modelled as a pure function of an environment that fixes the outcome of each
  transport operation, producing the ordered dispatches, stack pushes, logs and
  toasts of the run, followed by the scoped-run unwind, and
- the UI click handler of the App component, which guards connect/disconnect
  requests by the current status.

Machine reals do not occur: the only numeric field is the battery byte; the
source initialises it to NaN, modelled here as the none case of an Option Nat.
-/

set_option maxHeartbeats 1000000

namespace AyoGlasses

/-- Connection status enum, from the BleConnectStatus union type in ble.ts. -/
inductive BleStatus
  | disconnected
  | connecting
  | connected
  | disconnecting
deriving DecidableEq, BEq

/-- SessionState, from the initialState of the ble slice in ble.ts.
The battery field is a number initialised to NaN in the source; it is modelled
as an Option Nat where none stands for the NaN (unknown) sentinel. -/
structure BleState where
  status : BleStatus
  battery : Option Nat
  deviceId : String
  firmwareVersion : String
  hardwareVersion : String
  serialNumber : String
deriving DecidableEq

/-- The actions of the ble slice, from the reducers object in ble.ts. -/
inductive BleAction
  | connectBle
  | didFailToConnectBle
  | didConnectBle
  | disconnectBle
  | didDisconnectBle
  | didGetBleDevice (id : String)
  | didReadBatteryLevel (n : Nat)
  | didReadFirmwareVersion (s : String)
  | didReadHardwareVersion (s : String)
  | didReadSerialNumber (s : String)
deriving DecidableEq

/-- The ble slice reducer, translated case by case from the reducers object in
ble.ts lines 36-72.  Each case performs exactly the field writes of the source:
in particular didFailToConnectBle writes only the status field, while
didDisconnectBle writes status and resets battery, deviceId, firmwareVersion,
hardwareVersion and serialNumber. -/
def bleReducer (s : BleState) : BleAction → BleState
  | BleAction.connectBle => { s with status := BleStatus.connecting }
  | BleAction.didFailToConnectBle => { s with status := BleStatus.disconnected }
  | BleAction.didConnectBle => { s with status := BleStatus.connected }
  | BleAction.disconnectBle => { s with status := BleStatus.disconnecting }
  | BleAction.didDisconnectBle =>
      ⟨BleStatus.disconnected, none, "", "", "", ""⟩
  | BleAction.didGetBleDevice id => { s with deviceId := id }
  | BleAction.didReadBatteryLevel n => { s with battery := some n }
  | BleAction.didReadFirmwareVersion v => { s with firmwareVersion := v }
  | BleAction.didReadHardwareVersion v => { s with hardwareVersion := v }
  | BleAction.didReadSerialNumber v => { s with serialNumber := v }

/-- The initial state of the ble slice, from ble.ts lines 28-35. -/
def initialBleState : BleState := ⟨BleStatus.disconnected, none, "", "", "", ""⟩

/-- Left fold of the reducer over a list of dispatched actions. -/
def applyAll (s : BleState) (acts : List BleAction) : BleState :=
  acts.foldl bleReducer s

/-- The list of states visited while applying a list of actions, starting
state included. -/
def stateTrace (s : BleState) : List BleAction → List BleState
  | [] => [s]
  | a :: rest => s :: stateTrace (bleReducer s a) rest

/-- Removes consecutive duplicates, to read off the sequence of distinct
statuses from a trace. -/
def compress : List BleStatus → List BleStatus
  | [] => []
  | [a] => [a]
  | a :: b :: rest =>
      if a = b then compress (b :: rest) else a :: compress (b :: rest)

/-! ## The fallible-operation wrapper (maybe, util module lines 1-24) -/

/-- The result object returned by maybe: the ret and err slots model the
TypeScript fields (undefined modelled as none), and ok models the value the
discriminator closure returns. -/
structure MaybeResult (ε α : Type) where
  ret : Option α
  err : Option ε
  ok : Bool
deriving DecidableEq

/-- Embedding of the maybe wrapper (util module lines 17-24).  The settled
outcome of the wrapped promise is the argument: fulfilled with a value, or
rejected with a cause.  The try branch returns the value with err undefined
and a true discriminator; the catch branch captures the cause unmodified with
ret undefined and a false discriminator.  Totality of this function is the
never-raises guarantee. -/
def maybe {ε α : Type} (outcome : Except ε α) : MaybeResult ε α :=
  match outcome with
  | Except.ok v => ⟨some v, none, true⟩
  | Except.error e => ⟨none, some e, false⟩

/-! ## The scoped-release stack (ExitStack, util module lines 26-67) -/

/-- A release action registered with the generic ExitStack, identified by id;
the fails flag says whether invoking it throws. -/
structure UtilTask where
  id : Nat
  fails : Bool
deriving DecidableEq

/-- Observable events of an unwind: a task was invoked; a failure thrown by a
task was caught and logged (the catch branch at util module line 32-34). -/
inductive UnwindEv
  | invoked (id : Nat)
  | caught (id : Nat)
deriving DecidableEq

/-- Embedding of the free unwind function (util module lines 28-36): iterate
the reversed task list; each task is invoked, and when it throws the failure
is caught and logged, never stopping the loop.  The argument here is the
already-reversed list; unwindTasks below applies the reversal. -/
def unwindGo : List UtilTask → List UnwindEv
  | [] => []
  | t :: rest =>
      (UnwindEv.invoked t.id :: if t.fails then [UnwindEv.caught t.id] else [])
        ++ unwindGo rest

/-- unwind(tasks): invoke in reverse registration order. -/
def unwindTasks (tasks : List UtilTask) : List UnwindEv :=
  unwindGo tasks.reverse

/-- The ExitStack class (util module lines 38-55): a private task list. -/
structure ExitStack where
  tasks : List UtilTask
deriving DecidableEq

/-- push appends a task (util module lines 41-43). -/
def ExitStack.push (s : ExitStack) (t : UtilTask) : ExitStack :=
  ⟨s.tasks ++ [t]⟩

/-- unwind invokes the free unwind on the tasks and clears the list
(util module lines 45-48); returns the unwind events and the cleared stack. -/
def ExitStack.unwind (s : ExitStack) : List UnwindEv × ExitStack :=
  (unwindTasks s.tasks, ⟨[]⟩)

/-- popAll removes all tasks and returns them as a single composed release
procedure (util module lines 50-54); the cleared stack is returned alongside
the procedure, whose invocation produces the unwind events of the captured
tasks. -/
def ExitStack.popAll (s : ExitStack) : (Unit → List UnwindEv) × ExitStack :=
  (fun _ => unwindTasks s.tasks, ⟨[]⟩)

/-- Embedding of withExitStack (util module lines 57-67) as a function of the
outcome the body produced.  The body ran on a fresh stack and finished with a
result (normal return or thrown failure), a final stack, and its own events.
The catch branch logs at error severity and rethrows; the finally branch
unwinds whatever is left on the stack on both exit paths. -/
def withExitStackRun (bodyResult : Except String Unit) (bodyStack : List UtilTask)
    (bodyEvents : List UnwindEv) :
    Except String Unit × List UnwindEv :=
  match bodyResult with
  | Except.ok u => (Except.ok u, bodyEvents ++ unwindTasks bodyStack)
  | Except.error e => (Except.error e, bodyEvents ++ unwindTasks bodyStack)

/-! ## Text decoding (the TextDecoder collaborator) -/

/-- True when the byte is a UTF-8 continuation byte. -/
def isCont (b : Nat) : Bool := 0x80 ≤ b && b ≤ 0xbf

/-- Model of the platform TextDecoder (ble.ts line 18): UTF-8 decoding of a
byte list, one code point per 1-4 byte sequence, emitting U+FFFD on a
malformed leading or continuation byte.  Strict overlong/surrogate rejection
is elided; the repository only decodes short ASCII descriptor strings.
The fuel argument only serves termination: each step consumes at least one
byte while spending one unit of fuel, so fuel equal to the list length (as
supplied by utf8Decode) is never exhausted. -/
def utf8DecodeGo : Nat → List Nat → List Char
  | _, [] => []
  | 0, _ :: _ => []
  | fuel + 1, b :: rest =>
      if b < 0x80 then Char.ofNat b :: utf8DecodeGo fuel rest
      else if 0xc2 ≤ b && b ≤ 0xdf then
        match rest with
        | b2 :: rest2 =>
            if isCont b2 then
              Char.ofNat ((b % 0x20) * 0x40 + (b2 % 0x40)) :: utf8DecodeGo fuel rest2
            else Char.ofNat 0xfffd :: utf8DecodeGo fuel rest
        | [] => [Char.ofNat 0xfffd]
      else if 0xe0 ≤ b && b ≤ 0xef then
        match rest with
        | b2 :: b3 :: rest3 =>
            if isCont b2 && isCont b3 then
              Char.ofNat ((b % 0x10) * 0x1000 + (b2 % 0x40) * 0x40 + (b3 % 0x40))
                :: utf8DecodeGo fuel rest3
            else Char.ofNat 0xfffd :: utf8DecodeGo fuel rest
        | _ => Char.ofNat 0xfffd :: utf8DecodeGo fuel rest
      else if 0xf0 ≤ b && b ≤ 0xf4 then
        match rest with
        | b2 :: b3 :: b4 :: rest4 =>
            if isCont b2 && isCont b3 && isCont b4 then
              Char.ofNat ((b % 0x8) * 0x40000 + (b2 % 0x40) * 0x1000
                  + (b3 % 0x40) * 0x40 + (b4 % 0x40))
                :: utf8DecodeGo fuel rest4
            else Char.ofNat 0xfffd :: utf8DecodeGo fuel rest
        | _ => Char.ofNat 0xfffd :: utf8DecodeGo fuel rest
      else Char.ofNat 0xfffd :: utf8DecodeGo fuel rest

/-- decoder.decode on a byte payload. -/
def utf8Decode (bs : List Nat) : String := String.mk (utf8DecodeGo bs.length bs)

/-! ## The connection protocol driver (the startAppListening effect in ble.ts) -/

/-- A platform failure cause as the driver inspects it: whether it is a
DOMException and its name.  The driver branches only on these two facts
(ble.ts lines 143-146 and the NetworkError checks). -/
structure BleError where
  isDOMException : Bool
  name : String
deriving DecidableEq

/-- The four release actions the driver pushes onto its exit stack, one per
stack.push call site in ble.ts (lines 166-171, 199, 259-264, 288). -/
inductive Release
  | removeDisconnectListener
  | gattDisconnect
  | removeValueListener
  | stopNotifications
deriving DecidableEq, BEq

/-- Log severities of the console collaborator. -/
inductive Sev
  | debug
  | error
deriving DecidableEq

/-- The environment of one connection attempt: the settled outcome of every
transport operation the effect awaits, in source order.  takeOk says whether
the final take of a disconnectBle action resolves (an explicit disconnect
request arrives) or rejects. -/
structure Env where
  btDefined : Bool
  btAvailable : Bool
  requestDevice : Except BleError String
  gattDefined : Bool
  gattConnect : Except BleError Unit
  glassesInfoService : Except BleError Unit
  glassesInfoChar : Except BleError Unit
  startNotify : Except BleError Unit
  deviceInfoService : Except BleError Unit
  fwChar : Except BleError Unit
  fwRead : Except BleError (List Nat)
  hwChar : Except BleError Unit
  hwRead : Except BleError (List Nat)
  glassesService : Except BleError Unit
  serialChar : Except BleError Unit
  serialRead : Except BleError (List Nat)
  takeOk : Bool

/-- The user-cancellation test of ble.ts lines 143-146: a DOMException named
NotFoundError. -/
def isUserCancelError (e : BleError) : Bool :=
  e.isDOMException && e.name == "NotFoundError"

/-- The device-disconnected test repeated at every later step (for example
ble.ts lines 207-210): a DOMException named NetworkError. -/
def isNetworkError (e : BleError) : Bool :=
  e.isDOMException && e.name == "NetworkError"

/-- The severity of the log emitted by the repeated failure pattern of the
later protocol steps: debug for a NetworkError (device disconnected), error
otherwise. -/
def netFailSev (e : BleError) : Sev :=
  if isNetworkError e then Sev.debug else Sev.error

/-- The toasts emitted by the repeated failure pattern of the later protocol
steps: none for a NetworkError, the unexpected-error toast otherwise. -/
def netFailToasts (e : BleError) : List String :=
  if isNetworkError e then [] else ["unexpected-error"]

/-- What the effect body produced before the scoped-run unwind: the actions it
dispatched, the release actions it pushed (registration order), its console
logs, its toasts, and whether it reached didConnectBle. -/
structure EffectOut where
  dispatches : List BleAction
  pushes : List Release
  logs : List Sev
  toasts : List String
  succeeded : Bool
deriving DecidableEq

/-- Translation of the effect body of the startAppListening block in ble.ts
lines 92-489, branch by branch in source order.  Each failure branch returns
exactly the dispatches, pushes, logs and toasts accumulated up to that return
statement; the final branch is the full success path ending with
didConnectBle. -/
def connectEffect (env : Env) : EffectOut :=
  if env.btDefined = false then
    ⟨[BleAction.didFailToConnectBle], [], [Sev.debug], ["no-web-ble"], false⟩
  else if env.btAvailable = false then
    ⟨[BleAction.didFailToConnectBle], [], [Sev.debug], ["bluetooth-unavailable"], false⟩
  else
    match env.requestDevice with
    | Except.error e =>
        ⟨[BleAction.didFailToConnectBle], [],
          [if isUserCancelError e then Sev.debug else Sev.error],
          if isUserCancelError e then [] else ["unexpected-error"], false⟩
    | Except.ok devId =>
        let d0 := [BleAction.didGetBleDevice devId]
        let p0 := [Release.removeDisconnectListener]
        let l0 := [Sev.debug]
        if env.gattDefined = false then
          ⟨d0 ++ [BleAction.didFailToConnectBle], p0, l0 ++ [Sev.error],
            ["unexpected-error"], false⟩
        else
          match env.gattConnect with
          | Except.error _ =>
              ⟨d0 ++ [BleAction.didFailToConnectBle], p0, l0 ++ [Sev.debug],
                ["gatt-connection-failed"], false⟩
          | Except.ok _ =>
              let p1 := p0 ++ [Release.gattDisconnect]
              let l1 := l0 ++ [Sev.debug]
              match env.glassesInfoService with
              | Except.error e =>
                  ⟨d0 ++ [BleAction.didFailToConnectBle], p1,
                    l1 ++ [netFailSev e], netFailToasts e, false⟩
              | Except.ok _ =>
                  match env.glassesInfoChar with
                  | Except.error e =>
                      ⟨d0 ++ [BleAction.didFailToConnectBle], p1,
                        l1 ++ [netFailSev e], netFailToasts e, false⟩
                  | Except.ok _ =>
                      let p2 := p1 ++ [Release.removeValueListener]
                      match env.startNotify with
                      | Except.error e =>
                          ⟨d0 ++ [BleAction.didFailToConnectBle], p2,
                            l1 ++ [netFailSev e], netFailToasts e, false⟩
                      | Except.ok _ =>
                          let p3 := p2 ++ [Release.stopNotifications]
                          let l2 := l1 ++ [Sev.debug]
                          match env.deviceInfoService with
                          | Except.error e =>
                              ⟨d0 ++ [BleAction.didFailToConnectBle], p3,
                                l2 ++ [netFailSev e], netFailToasts e, false⟩
                          | Except.ok _ =>
                              let l3 := l2 ++ [Sev.debug]
                              match env.fwChar with
                              | Except.error e =>
                                  ⟨d0 ++ [BleAction.didFailToConnectBle], p3,
                                    l3 ++ [netFailSev e], netFailToasts e, false⟩
                              | Except.ok _ =>
                                  match env.fwRead with
                                  | Except.error e =>
                                      ⟨d0 ++ [BleAction.didFailToConnectBle], p3,
                                        l3 ++ [netFailSev e], netFailToasts e, false⟩
                                  | Except.ok fwBytes =>
                                      let d1 := d0 ++
                                        [BleAction.didReadFirmwareVersion (utf8Decode fwBytes)]
                                      let l4 := l3 ++ [Sev.debug]
                                      match env.hwChar with
                                      | Except.error e =>
                                          ⟨d1 ++ [BleAction.didFailToConnectBle], p3,
                                            l4 ++ [netFailSev e], netFailToasts e, false⟩
                                      | Except.ok _ =>
                                          match env.hwRead with
                                          | Except.error e =>
                                              ⟨d1 ++ [BleAction.didFailToConnectBle], p3,
                                                l4 ++ [netFailSev e], netFailToasts e, false⟩
                                          | Except.ok hwBytes =>
                                              let d2 := d1 ++
                                                [BleAction.didReadHardwareVersion (utf8Decode hwBytes)]
                                              let l5 := l4 ++ [Sev.debug]
                                              match env.glassesService with
                                              | Except.error e =>
                                                  ⟨d2 ++ [BleAction.didFailToConnectBle], p3,
                                                    l5 ++ [netFailSev e], netFailToasts e, false⟩
                                              | Except.ok _ =>
                                                  let l6 := l5 ++ [Sev.debug]
                                                  match env.serialChar with
                                                  | Except.error e =>
                                                      ⟨d2 ++ [BleAction.didFailToConnectBle], p3,
                                                        l6 ++ [netFailSev e], netFailToasts e, false⟩
                                                  | Except.ok _ =>
                                                      match env.serialRead with
                                                      | Except.error e =>
                                                          ⟨d2 ++ [BleAction.didFailToConnectBle], p3,
                                                            l6 ++ [netFailSev e], netFailToasts e, false⟩
                                                      | Except.ok snBytes =>
                                                          ⟨d2 ++
                                                            [BleAction.didReadSerialNumber (utf8Decode snBytes),
                                                              BleAction.didConnectBle],
                                                            p3, l6 ++ [Sev.debug], [], true⟩

/-- Platform facts the teardown depends on: whether the unsolicited-disconnect
listener is still attached and whether the GATT link is still up. -/
structure TeardownState where
  listenerAttached : Bool
  gattConnected : Bool

/-- The effect of invoking one release action during the unwind.  Invoking
the gatt disconnect while the unsolicited-disconnect listener of step 4 is
still attached fires that listener, whose callback dispatches
didDisconnectBle (ble.ts lines 161-164); the source relies on exactly this to
finish an explicit disconnect (the comment at ble.ts line 488). -/
def runRelease (st : TeardownState) : Release → TeardownState × List BleAction
  | Release.removeDisconnectListener => ({ st with listenerAttached := false }, [])
  | Release.gattDisconnect =>
      ({ st with gattConnected := false },
        if st.gattConnected && st.listenerAttached then [BleAction.didDisconnectBle] else [])
  | Release.removeValueListener => (st, [])
  | Release.stopNotifications => (st, [])

/-- The unwind loop over an already-reversed release list: invokes each action
in order, accumulating the callback dispatches; returns the invocation order
and the dispatches. -/
def runTeardown (st : TeardownState) : List Release → List Release × List BleAction
  | [] => ([], [])
  | r :: rest =>
      let p := runRelease st r
      let q := runTeardown p.1 rest
      (r :: q.1, p.2 ++ q.2)

/-- Everything observable about one full run of the connectBle listener: the
trigger action, the effect body, the optional explicit disconnect request that
resolves the final take, and the scoped-run unwind of the stack. -/
structure SessionRun where
  actions : List BleAction
  pushes : List Release
  invocations : List Release
  logs : List Sev
  toasts : List String
deriving DecidableEq

/-- One full run: redux dispatches the connectBle trigger through the reducer,
the effect body runs (connectEffect), then — when the body reached
didConnectBle and the final take resolves — the explicit disconnectBle request
is dispatched, and finally the ambient withExitStack unwinds the pushed
release actions in reverse registration order (util module lines 57-67),
collecting the dispatches their callbacks produce.  A rejected take only logs
at debug severity (ble.ts lines 481-486). -/
def sessionRun (env : Env) : SessionRun :=
  let eff := connectEffect env
  let st0 : TeardownState :=
    ⟨eff.pushes.contains Release.removeDisconnectListener,
      eff.pushes.contains Release.gattDisconnect⟩
  let td := runTeardown st0 eff.pushes.reverse
  let userActs := if eff.succeeded && env.takeOk then [BleAction.disconnectBle] else []
  let takeLogs := if eff.succeeded && !env.takeOk then [Sev.debug] else []
  ⟨BleAction.connectBle :: eff.dispatches ++ userActs ++ td.2,
    eff.pushes, td.1, eff.logs ++ takeLogs, eff.toasts⟩

/-- The SessionState after a full run, starting from the slice initial state. -/
def finalState (env : Env) : BleState :=
  applyAll initialBleState (sessionRun env).actions

/-- The statuses visited over a full run, initial state included. -/
def statusTrace (env : Env) : List BleStatus :=
  (stateTrace initialBleState (sessionRun env).actions).map BleState.status

/-- Discriminator for the Except outcomes of the environment. -/
def isOkB {α : Type} : Except BleError α → Bool
  | Except.ok _ => true
  | Except.error _ => false

/-- Success of protocol step k (numbered 1-9 as in the spec) in a given
environment.  Step 4 (registering the unsolicited-disconnect listener) cannot
fail in the source; the gatt-undefined check of ble.ts lines 173-178 is part
of opening the transport connection, step 5. -/
def stepOk (env : Env) : Nat → Bool
  | 1 => env.btDefined
  | 2 => env.btAvailable
  | 3 => isOkB env.requestDevice
  | 5 => env.gattDefined && isOkB env.gattConnect
  | 6 => isOkB env.glassesInfoService && isOkB env.glassesInfoChar
  | 7 => isOkB env.startNotify
  | 8 => isOkB env.deviceInfoService && isOkB env.fwChar && isOkB env.fwRead
          && isOkB env.hwChar && isOkB env.hwRead
  | 9 => isOkB env.glassesService && isOkB env.serialChar && isOkB env.serialRead
  | _ => true

/-- All nine protocol steps succeed. -/
def allStepsOk (env : Env) : Bool :=
  stepOk env 1 && stepOk env 2 && stepOk env 3 && stepOk env 5 && stepOk env 6
    && stepOk env 7 && stepOk env 8 && stepOk env 9

/-- The battery value-change callback (ble.ts lines 243-254) as a function of
the characteristic value at the moment the event fires: absent value returns
without dispatching; otherwise getUint8(0) reads byte 0 (out of range would
throw, reported in the second component) and the battery level is dispatched. -/
def onCharacteristicValueChanged (value : Option (List Nat)) : List BleAction × Bool :=
  match value with
  | none => ([], false)
  | some bytes =>
      match bytes.head? with
      | some b => ([BleAction.didReadBatteryLevel b], false)
      | none => ([], true)

/-- The click handler of the App component (part_000 lines 43-52): dispatch
connectBle only while disconnected, disconnectBle only while connected,
otherwise do nothing. -/
def appOnClick : BleStatus → Option BleAction
  | BleStatus.disconnected => some BleAction.connectBle
  | BleStatus.connected => some BleAction.disconnectBle
  | _ => none

/-- The state after one click of the App button in a given state: the guarded
dispatch goes through the reducer when the handler produces an action. -/
def appClick (s : BleState) : BleState :=
  match appOnClick s.status with
  | none => s
  | some a => bleReducer s a

/-- A concrete environment failing at step 5: gatt is undefined on the
selected device; every earlier step succeeds. -/
def env5 : Env :=
  ⟨true, true, Except.ok "dev-1", false, Except.ok (), Except.ok (),
    Except.ok (), Except.ok (), Except.ok (), Except.ok (), Except.ok [49],
    Except.ok (), Except.ok [49], Except.ok (), Except.ok (), Except.ok [65], true⟩

/-- A concrete environment in which every protocol step succeeds, the firmware
bytes decode to 1.2.3, and the final take resolves with an explicit
disconnect request. -/
def fullEnv : Env :=
  ⟨true, true, Except.ok "ayo-1", true, Except.ok (), Except.ok (),
    Except.ok (), Except.ok (), Except.ok (), Except.ok (),
    Except.ok [49, 46, 50, 46, 51], Except.ok (), Except.ok [49],
    Except.ok (), Except.ok (), Except.ok [65, 66], true⟩

/-- A concrete session state with status connected and populated fields. -/
def connectedState : BleState :=
  ⟨BleStatus.connected, some 50, "dev-1", "1.2.3", "1", "SN"⟩

/-- A concrete session state with status connecting. -/
def connectingState : BleState :=
  ⟨BleStatus.connecting, none, "", "", "", ""⟩

/-- The failure cause the platform produces when the user cancels the
device-selection prompt: a DOMException named NotFoundError. -/
def cancelErr : BleError := ⟨true, "NotFoundError"⟩

/-- A concrete environment in which the device-selection prompt is cancelled
by the user; steps 1 and 2 succeed. -/
def env8 : Env :=
  ⟨true, true, Except.error cancelErr, true, Except.ok (), Except.ok (),
    Except.ok (), Except.ok (), Except.ok (), Except.ok (), Except.ok [49],
    Except.ok (), Except.ok [49], Except.ok (), Except.ok (), Except.ok [65], true⟩

/-- The ids of the tasks an unwind invoked, in order. -/
def invokedIds : List UnwindEv → List Nat
  | [] => []
  | UnwindEv.invoked i :: rest => i :: invokedIds rest
  | UnwindEv.caught _ :: rest => invokedIds rest

/-- The ids of the tasks whose thrown failure an unwind caught and logged,
in order. -/
def caughtIds : List UnwindEv → List Nat
  | [] => []
  | UnwindEv.invoked _ :: rest => caughtIds rest
  | UnwindEv.caught i :: rest => i :: caughtIds rest

/-! ## Helper lemmas -/

theorem invokedIds_append (a b : List UnwindEv) :
    invokedIds (a ++ b) = invokedIds a ++ invokedIds b := by
  induction a with
  | nil => rfl
  | cons e rest ih => cases e <;> simp [invokedIds, ih]

theorem caughtIds_append (a b : List UnwindEv) :
    caughtIds (a ++ b) = caughtIds a ++ caughtIds b := by
  induction a with
  | nil => rfl
  | cons e rest ih => cases e <;> simp [caughtIds, ih]

theorem invokedIds_unwindGo (l : List UtilTask) :
    invokedIds (unwindGo l) = l.map UtilTask.id := by
  induction l with
  | nil => rfl
  | cons t rest ih =>
      cases hf : t.fails <;>
        simp [unwindGo, hf, invokedIds, invokedIds_append, ih]

theorem caughtIds_unwindGo (l : List UtilTask) :
    caughtIds (unwindGo l) = (l.filter UtilTask.fails).map UtilTask.id := by
  induction l with
  | nil => rfl
  | cons t rest ih =>
      cases hf : t.fails <;>
        simp [unwindGo, hf, caughtIds, caughtIds_append, ih, List.filter]

theorem runTeardown_fst (st : TeardownState) (l : List Release) :
    (runTeardown st l).1 = l := by
  induction l generalizing st with
  | nil => rfl
  | cons r rest ih => simp [runTeardown, ih]

theorem sessionRun_invocations (env : Env) :
    (sessionRun env).invocations = (sessionRun env).pushes.reverse := by
  simp [sessionRun, runTeardown_fst]

/-! ## Claim theorems -/

/-- C5: the fallible-operation wrapper maybe never raises (it is a total
function of the settled outcome); an operation fulfilling with v yields a true
discriminator, success slot v and undefined failure slot; an operation
rejecting with cause e yields a false discriminator, undefined success slot
and the cause e unmodified in the failure slot. -/
theorem maybe_spec (ε α : Type) (v : α) (e : ε) :
    (maybe (Except.ok v : Except ε α)).ok = true ∧
    (maybe (Except.ok v : Except ε α)).ret = some v ∧
    (maybe (Except.ok v : Except ε α)).err = none ∧
    (maybe (Except.error e : Except ε α)).ok = false ∧
    (maybe (Except.error e : Except ε α)).ret = none ∧
    (maybe (Except.error e : Except ε α)).err = some e :=
  ⟨rfl, rfl, rfl, rfl, rfl, rfl⟩

/-- C6: for every sequence of registered release actions, unwind invokes every
action exactly once in reverse registration order, afterwards the stack holds
no actions, and every action that throws has its failure caught and logged
without preventing the remaining actions from being invoked (the invocation
list is the full reversal regardless of which actions fail). -/
theorem exitStack_unwind_spec (ts : List UtilTask) :
    invokedIds ((ExitStack.unwind ⟨ts⟩).1) = (ts.map UtilTask.id).reverse ∧
    ((ExitStack.unwind ⟨ts⟩).2).tasks = [] ∧
    caughtIds ((ExitStack.unwind ⟨ts⟩).1) =
      ((ts.reverse).filter UtilTask.fails).map UtilTask.id := by
  refine ⟨?_, rfl, ?_⟩
  · simp [ExitStack.unwind, unwindTasks, invokedIds_unwindGo]
  · simp [ExitStack.unwind, unwindTasks, caughtIds_unwindGo]

/-- C7: a battery notification whose payload has first byte 42 dispatches a
battery update of 42 (byte 0 of the payload as an unsigned 8-bit integer) and
the published battery is 42; firmware-revision bytes encoding the text 1.2.3
decode to the string 1.2.3, and the driver publishes exactly that string as
the firmware version. -/
theorem battery_firmware_roundtrip (s : BleState) (rest : List Nat) :
    (onCharacteristicValueChanged (some (42 :: rest))).1 =
      [BleAction.didReadBatteryLevel 42] ∧
    (applyAll s (onCharacteristicValueChanged (some (42 :: rest))).1).battery = some 42 ∧
    utf8Decode [49, 46, 50, 46, 51] = "1.2.3" ∧
    (applyAll initialBleState
      (BleAction.connectBle :: (connectEffect fullEnv).dispatches)).firmwareVersion
      = "1.2.3" :=
  ⟨rfl, rfl, by decide, by decide⟩

/-- C10: a battery value-change event firing while the characteristic value is
absent dispatches nothing (and does not throw), leaving any session state
entirely unchanged. -/
theorem battery_event_absent_value_noop (s : BleState) :
    (onCharacteristicValueChanged none).1 = [] ∧
    (onCharacteristicValueChanged none).2 = false ∧
    applyAll s (onCharacteristicValueChanged none).1 = s :=
  ⟨rfl, rfl, rfl⟩

/-- C3 counterexample: after the connection attempt env5 (device selected,
then the transport connection fails at step 5) the status is Disconnected yet
deviceId still holds the selected device identifier, so the fields are not
cleared together on this transition into Disconnected. -/
theorem fail_transition_keeps_deviceId :
    (finalState env5).status = BleStatus.disconnected ∧
    ¬ ((finalState env5).deviceId = "") := by
  refine ⟨by decide, by decide⟩

/-- C3 amended: only didDisconnectBle (a completed or unsolicited disconnect)
clears deviceId, battery and the three descriptor fields together with the
status; didFailToConnectBle (a failed connection attempt) writes only the
status, leaving every other field as it was. -/
theorem disconnect_clears_fail_preserves (s : BleState) :
    bleReducer s BleAction.didDisconnectBle =
      ⟨BleStatus.disconnected, none, "", "", "", ""⟩ ∧
    bleReducer s BleAction.didFailToConnectBle =
      { s with status := BleStatus.disconnected } :=
  ⟨rfl, rfl⟩

/-- C4 counterexample: dispatching connectBle in a connected state does not
leave the SessionState unchanged — the reducer unconditionally moves status to
connecting. -/
theorem connect_request_not_noop :
    ¬ (bleReducer connectedState BleAction.connectBle = connectedState) := by
  decide

/-- C4 amended: the reducers apply the status change unconditionally; the
no-op guarantee is enforced by the issuing UI control, whose click handler
dispatches nothing while status is Connecting or Disconnecting, dispatches
connectBle only while Disconnected, and disconnectBle only while Connected. -/
theorem ui_request_guard (s : BleState) :
    ((s.status = BleStatus.connecting ∨ s.status = BleStatus.disconnecting) →
      appClick s = s) ∧
    (s.status = BleStatus.disconnected →
      appClick s = bleReducer s BleAction.connectBle) ∧
    (s.status = BleStatus.connected →
      appClick s = bleReducer s BleAction.disconnectBle) := by
  obtain ⟨st, b, d, f, hw, sn⟩ := s
  cases st <;> simp [appClick, appOnClick]

/-- C4 amended, witness: a click while connecting leaves the state unchanged. -/
theorem ui_request_guard_witness : appClick connectingState = connectingState :=
  (ui_request_guard connectingState).1 (Or.inl rfl)

/-- C9 counterexample: the full successful connect followed by an explicit
disconnect registers four release actions, not six. -/
theorem full_session_not_six_releases :
    ¬ ((sessionRun fullEnv).pushes.length = 6) := by
  decide

/-- C9 amended: a full successful connect followed by an explicit disconnect
produces the status sequence Disconnected, Connecting, Connected,
Disconnecting, Disconnected, with exactly four release actions registered
(remove-disconnect-listener, gatt-disconnect, remove-value-listener,
stop-notify, in registration order) and invoked in exact reverse order of
registration: stop-notify, remove-value-listener, gatt-disconnect,
remove-disconnect-listener. -/
theorem full_session_trace :
    compress (statusTrace fullEnv) =
      [BleStatus.disconnected, BleStatus.connecting, BleStatus.connected,
        BleStatus.disconnecting, BleStatus.disconnected] ∧
    (sessionRun fullEnv).pushes =
      [Release.removeDisconnectListener, Release.gattDisconnect,
        Release.removeValueListener, Release.stopNotifications] ∧
    (sessionRun fullEnv).pushes.length = 4 ∧
    (sessionRun fullEnv).invocations =
      [Release.stopNotifications, Release.removeValueListener,
        Release.gattDisconnect, Release.removeDisconnectListener] := by
  refine ⟨by decide, by decide, by decide, by decide⟩

/-- C2 counterexample: in the all-steps-succeed run the normal scoped-run
unwind is not a no-op — it performs the releases itself (the source never
calls popAll and keeps no registry; the effect suspends on the take of a
disconnect request and lets the unwind disconnect). -/
theorem success_unwind_not_noop :
    ¬ ((sessionRun fullEnv).invocations = []) := by
  decide

/-- Any environment in which some protocol step fails leaves the session in
status Disconnected at the end of the run. -/
theorem status_of_step_failure (env : Env) (h : allStepsOk env = false) :
    (finalState env).status = BleStatus.disconnected := by
  obtain ⟨bt, av, rd, gd, gc, gis, gic, snt, dis, fwc, fwr, hwc, hwr, gls, slc, slr, tk⟩ := env
  cases bt with
  | false => rfl
  | true =>
    cases av with
    | false => rfl
    | true =>
      cases rd with
      | error e => rfl
      | ok devId =>
        cases gd with
        | false => rfl
        | true =>
          cases gc with
          | error e => rfl
          | ok u1 =>
            cases gis with
            | error e => rfl
            | ok u2 =>
              cases gic with
              | error e => rfl
              | ok u3 =>
                cases snt with
                | error e => rfl
                | ok u4 =>
                  cases dis with
                  | error e => rfl
                  | ok u5 =>
                    cases fwc with
                    | error e => rfl
                    | ok u6 =>
                      cases fwr with
                      | error e => rfl
                      | ok fwBytes =>
                        cases hwc with
                        | error e => rfl
                        | ok u7 =>
                          cases hwr with
                          | error e => rfl
                          | ok hwBytes =>
                            cases gls with
                            | error e => rfl
                            | ok u8 =>
                              cases slc with
                              | error e => rfl
                              | ok u9 =>
                                cases slr with
                                | error e => rfl
                                | ok snBytes =>
                                  simp [allStepsOk, stepOk, isOkB] at h

/-- C1: whenever protocol step k (1-9) fails after steps 1..k-1 succeeded, the
attempt ends with status Disconnected, the scoped-run unwind invokes exactly
the release actions pushed before the failure, each exactly once, in exact
reverse order of registration; and the scoped-run wrapper appends the unwind
of the remaining stack on every exit path, normal return and thrown failure
alike. -/
theorem connect_step_failure_unwinds (env : Env) (k : Nat)
    (h1 : 1 ≤ k) (h2 : k ≤ 9) (hfail : stepOk env k = false)
    (hpre : ∀ j, j < k → 1 ≤ j → stepOk env j = true) :
    (finalState env).status = BleStatus.disconnected ∧
    (sessionRun env).invocations = (sessionRun env).pushes.reverse ∧
    (∀ (r : Except String Unit) (ts : List UtilTask) (evs : List UnwindEv),
      (withExitStackRun r ts evs).2 = evs ++ unwindTasks ts) := by
  have hall : allStepsOk env = false := by
    interval_cases k
    · simp [allStepsOk, hfail]
    · simp [allStepsOk, hfail]
    · simp [allStepsOk, hfail]
    · exact Bool.noConfusion ((rfl : true = stepOk env 4).trans hfail)
    · simp [allStepsOk, hfail]
    · simp [allStepsOk, hfail]
    · simp [allStepsOk, hfail]
    · simp [allStepsOk, hfail]
    · simp [allStepsOk, hfail]
  refine ⟨status_of_step_failure env hall, sessionRun_invocations env, ?_⟩
  intro r ts evs
  cases r <;> rfl

/-- C1 witness: the concrete attempt env5 fails at step 5 with steps 1-4
succeeded; the conclusion holds there. -/
theorem connect_step_failure_unwinds_witness :
    (finalState env5).status = BleStatus.disconnected ∧
    (sessionRun env5).invocations = (sessionRun env5).pushes.reverse ∧
    (∀ (r : Except String Unit) (ts : List UtilTask) (evs : List UnwindEv),
      (withExitStackRun r ts evs).2 = evs ++ unwindTasks ts) := by
  refine connect_step_failure_unwinds env5 5 (by decide) (by decide) (by decide) ?_
  intro j hj hj1
  interval_cases j <;> decide

/-- C2 amended: when all protocol steps succeed the release actions remain on
the scoped stack — the source never detaches them into a registry (popAll is
unused) — and once the awaited disconnect request arrives, the normal
scoped-run unwind itself invokes every pushed release action exactly once in
exact reverse order of registration, landing on status Disconnected. -/
theorem connect_success_releases_on_unwind (env : Env)
    (hok : allStepsOk env = true) (htake : env.takeOk = true) :
    (sessionRun env).pushes =
      [Release.removeDisconnectListener, Release.gattDisconnect,
        Release.removeValueListener, Release.stopNotifications] ∧
    (sessionRun env).invocations =
      [Release.stopNotifications, Release.removeValueListener,
        Release.gattDisconnect, Release.removeDisconnectListener] ∧
    (finalState env).status = BleStatus.disconnected := by
  obtain ⟨bt, av, rd, gd, gc, gis, gic, snt, dis, fwc, fwr, hwc, hwr, gls, slc, slr, tk⟩ := env
  cases bt with
  | false => exact Bool.noConfusion hok
  | true =>
    cases av with
    | false => exact Bool.noConfusion hok
    | true =>
      cases rd with
      | error e => exact Bool.noConfusion hok
      | ok devId =>
        cases gd with
        | false => exact Bool.noConfusion hok
        | true =>
          cases gc with
          | error e => exact Bool.noConfusion hok
          | ok u1 =>
            cases gis with
            | error e => exact Bool.noConfusion hok
            | ok u2 =>
              cases gic with
              | error e => exact Bool.noConfusion hok
              | ok u3 =>
                cases snt with
                | error e => exact Bool.noConfusion hok
                | ok u4 =>
                  cases dis with
                  | error e => exact Bool.noConfusion hok
                  | ok u5 =>
                    cases fwc with
                    | error e => exact Bool.noConfusion hok
                    | ok u6 =>
                      cases fwr with
                      | error e => exact Bool.noConfusion hok
                      | ok fwBytes =>
                        cases hwc with
                        | error e => exact Bool.noConfusion hok
                        | ok u7 =>
                          cases hwr with
                          | error e => exact Bool.noConfusion hok
                          | ok hwBytes =>
                            cases gls with
                            | error e => exact Bool.noConfusion hok
                            | ok u8 =>
                              cases slc with
                              | error e => exact Bool.noConfusion hok
                              | ok u9 =>
                                cases slr with
                                | error e => exact Bool.noConfusion hok
                                | ok snBytes =>
                                  cases tk with
                                  | false => exact Bool.noConfusion htake
                                  | true => exact ⟨rfl, rfl, rfl⟩

/-- C2 amended, witness: the conclusion holds in the concrete all-success
environment fullEnv. -/
theorem connect_success_releases_on_unwind_witness :
    (sessionRun fullEnv).pushes =
      [Release.removeDisconnectListener, Release.gattDisconnect,
        Release.removeValueListener, Release.stopNotifications] ∧
    (sessionRun fullEnv).invocations =
      [Release.stopNotifications, Release.removeValueListener,
        Release.gattDisconnect, Release.removeDisconnectListener] ∧
    (finalState fullEnv).status = BleStatus.disconnected :=
  connect_success_releases_on_unwind fullEnv (by decide) (by decide)

/-- C8: when device selection fails after steps 1-2 succeeded, the run ends
Disconnected; a user cancellation (DOMException named NotFoundError) is logged
at debug severity only and produces no toast, while any other selection
failure is logged at error severity and surfaces the unexpected-error toast. -/
theorem device_selection_failure_policy (env : Env) (e : BleError)
    (h1 : env.btDefined = true) (h2 : env.btAvailable = true)
    (h3 : env.requestDevice = Except.error e) :
    (finalState env).status = BleStatus.disconnected ∧
    (isUserCancelError e = true →
      (sessionRun env).logs = [Sev.debug] ∧ (sessionRun env).toasts = []) ∧
    (isUserCancelError e = false →
      (sessionRun env).logs = [Sev.error] ∧
      (sessionRun env).toasts = ["unexpected-error"]) := by
  refine ⟨?_, ?_, ?_⟩
  · simp [finalState, sessionRun, applyAll, connectEffect, h1, h2, h3,
      runTeardown, initialBleState, bleReducer]
  · intro hc
    constructor <;> simp [sessionRun, connectEffect, h1, h2, h3, hc]
  · intro hc
    constructor <;> simp [sessionRun, connectEffect, h1, h2, h3, hc]

/-- C8 witness: the concrete cancelled-selection environment env8 lands
Disconnected with a single debug log and no toast. -/
theorem device_selection_failure_policy_witness :
    (finalState env8).status = BleStatus.disconnected ∧
    (sessionRun env8).logs = [Sev.debug] ∧ (sessionRun env8).toasts = [] := by
  have h := device_selection_failure_policy env8 cancelErr rfl rfl rfl
  exact ⟨h.1, h.2.1 (by decide)⟩

end AyoGlasses
